import Mathlib

/-!
Shallow embedding of the `llm-provider-auth` credential lifecycle and
resilient request executor, translated from the Python sources
(`src/auth.py`, `src/codex_auth.py`, `src/copilot_auth.py`,
`src/chat_model.py`, `src/codex_chat_model.py`).

Conventions of the embedding:
* `time.time()` and `expires_at` values are modelled as integers (`Int`,
  seconds); millisecond bookkeeping timestamps are `Int` milliseconds.
  The properties under study only depend on the ordered-field structure.
* JSON dictionaries persisted in `accounts.json` are modelled as records
  whose optional keys are `Option`-typed.
* Network responses are passed to the embedded functions as explicit
  arguments (the data the source reads off the `httpx` response), so the
  stateful Python code becomes explicit state passing.
-/

namespace ProviderAuth

/-- Credential record `AntigravityAuth` (src/auth.py). -/
structure AntigravityAuth where
  accessToken : String
  refreshToken : String
  expiresAt : Int
  email : Option String := none
  projectId : Option String := none
  managedProjectId : Option String := none
deriving DecidableEq

/-- `AntigravityAuth.is_expired` (src/auth.py lines 81-82):
`time.time() >= (self.expires_at - buffer_seconds)`. -/
def AntigravityAuth.isExpired (a : AntigravityAuth) (now bufferSeconds : Int) : Bool :=
  decide (a.expiresAt - bufferSeconds ≤ now)

/-- Credential record `CodexAuth` (src/codex_auth.py). -/
structure CodexAuth where
  accessToken : String
  refreshToken : String
  expiresAt : Int
  accountId : Option String := none
  email : Option String := none
deriving DecidableEq

/-- `CodexAuth.is_expired` (src/codex_auth.py lines 63-64):
`time.time() >= (self.expires_at - buffer_seconds)`. -/
def CodexAuth.isExpired (a : CodexAuth) (now bufferSeconds : Int) : Bool :=
  decide (a.expiresAt - bufferSeconds ≤ now)

/-- Credential record `CopilotAuth` (src/copilot_auth.py). -/
structure CopilotAuth where
  accessToken : String
  expiresAt : Int
  accountId : Option String := none
  login : Option String := none
  email : Option String := none
deriving DecidableEq

/-- `CopilotAuth.is_expired` (src/copilot_auth.py lines 41-44):
`if not self.expires_at: return False` then the shared comparison.
A falsy (`0`) `expires_at` short-circuits to `False`. -/
def CopilotAuth.isExpired (a : CopilotAuth) (now bufferSeconds : Int) : Bool :=
  if a.expiresAt = 0 then false
  else decide (a.expiresAt - bufferSeconds ≤ now)

/-- One element of the persisted `accounts` list of `AccountStorage`
(src/auth.py): a JSON object whose keys are read with `.get`, so the
bookkeeping keys are `Option`-typed exactly like absent dictionary keys. -/
structure Account where
  email : Option String := none
  refreshToken : String := ""
  projectId : Option String := none
  managedProjectId : Option String := none
  addedAt : Option Int := none
  lastUsed : Option Int := none
deriving DecidableEq

/-- `AccountStorage` (src/auth.py lines 106-115).  `active_index` is a
plain Python `int` loaded from JSON, hence `Int` (it can be out of range
or negative in a hand-edited file). -/
structure AccountStorage where
  version : Int := 3
  accounts : List Account := []
  activeIndex : Int := 0
deriving DecidableEq

/-- `AccountStorage.get_active_account` (src/auth.py lines 112-115):
returns the account at `active_index` when that index is in range, else
the first account when the list is non-empty, else `None`. -/
def AccountStorage.getActiveAccount (s : AccountStorage) : Option Account :=
  if 0 ≤ s.activeIndex ∧ s.activeIndex < (s.accounts.length : Int) then
    s.accounts[s.activeIndex.toNat]?
  else
    s.accounts.head?

/-- `remove_account` (src/auth.py lines 632-644) acting on an already
loaded storage: pops the first account whose `email` key equals the
argument, clamps `active_index` when it falls off the end, and reports
whether a matching account existed.  (The Python wrapper additionally
returns `False` when no storage file exists at all.) -/
def removeAccount (s : AccountStorage) (email : String) : AccountStorage × Bool :=
  match s.accounts.findIdx? (fun acc => acc.email = some email) with
  | none => (s, false)
  | some i =>
    let accounts' := s.accounts.eraseIdx i
    let idx' : Int :=
      if (accounts'.length : Int) ≤ s.activeIndex then
        max 0 ((accounts'.length : Int) - 1)
      else s.activeIndex
    ({ s with accounts := accounts', activeIndex := idx' }, true)

/-- The codex analogue of an account record (src/codex_auth.py): keyed by
`account_id` instead of `email`, token key `refresh_token`. -/
structure CodexAccount where
  accountId : Option String := none
  refreshToken : String := ""
  email : Option String := none
  addedAt : Option Int := none
  lastUsed : Option Int := none
deriving DecidableEq

/-- `CodexAccountStorage` (src/codex_auth.py lines 86-95). -/
structure CodexAccountStorage where
  version : Int := 1
  accounts : List CodexAccount := []
  activeIndex : Int := 0
deriving DecidableEq

/-- `CodexAccountStorage.get_active_account` (src/codex_auth.py lines 92-95),
textually identical to the antigravity version. -/
def CodexAccountStorage.getActiveAccount (s : CodexAccountStorage) : Option CodexAccount :=
  if 0 ≤ s.activeIndex ∧ s.activeIndex < (s.accounts.length : Int) then
    s.accounts[s.activeIndex.toNat]?
  else
    s.accounts.head?

/-- `remove_codex_account` (src/codex_auth.py lines 588-600) on a loaded
storage; identical shape to `removeAccount` with identity `account_id`. -/
def removeCodexAccount (s : CodexAccountStorage) (accountId : String) :
    CodexAccountStorage × Bool :=
  match s.accounts.findIdx? (fun acc => acc.accountId = some accountId) with
  | none => (s, false)
  | some i =>
    let accounts' := s.accounts.eraseIdx i
    let idx' : Int :=
      if (accounts'.length : Int) ≤ s.activeIndex then
        max 0 ((accounts'.length : Int) - 1)
      else s.activeIndex
    ({ s with accounts := accounts', activeIndex := idx' }, true)

/-- A copilot account record (src/copilot_auth.py), keyed by `account_id`. -/
structure CopilotAccount where
  accountId : Option String := none
  accessToken : String := ""
  expiresAt : Int := 0
  login : Option String := none
  email : Option String := none
deriving DecidableEq

/-- `CopilotAccountStorage` (src/copilot_auth.py lines 70-79). -/
structure CopilotAccountStorage where
  version : Int := 1
  accounts : List CopilotAccount := []
  activeIndex : Int := 0
deriving DecidableEq

/-- `CopilotAccountStorage.get_active_account` (src/copilot_auth.py lines
76-79), textually identical to the antigravity version. -/
def CopilotAccountStorage.getActiveAccount (s : CopilotAccountStorage) :
    Option CopilotAccount :=
  if 0 ≤ s.activeIndex ∧ s.activeIndex < (s.accounts.length : Int) then
    s.accounts[s.activeIndex.toNat]?
  else
    s.accounts.head?

/-- `remove_copilot_account` (src/copilot_auth.py lines 431-442) on a
loaded storage; identical shape to `removeAccount` with identity
`account_id`. -/
def removeCopilotAccount (s : CopilotAccountStorage) (accountId : String) :
    CopilotAccountStorage × Bool :=
  match s.accounts.findIdx? (fun acc => acc.accountId = some accountId) with
  | none => (s, false)
  | some i =>
    let accounts' := s.accounts.eraseIdx i
    let idx' : Int :=
      if (accounts'.length : Int) ≤ s.activeIndex then
        max 0 ((accounts'.length : Int) - 1)
      else s.activeIndex
    ({ s with accounts := accounts', activeIndex := idx' }, true)

/-- Python string truthiness for optional JSON string fields:
`None` and `""` are falsy, everything else truthy. -/
def optTruthy (o : Option String) : Bool :=
  match o with
  | none => false
  | some s => decide (¬ s = "")

/-- `ANTIGRAVITY_DEFAULT_PROJECT_ID` (src/constants.py). -/
def ANTIGRAVITY_DEFAULT_PROJECT_ID : String := "rising-fact-p41fc"

/-- `_is_default_project_id` (src/auth.py lines 118-119):
`bool(project_id) and project_id == ANTIGRAVITY_DEFAULT_PROJECT_ID`,
here on the already `or ""`-normalised string. -/
def isDefaultProjectId (projectId : String) : Bool :=
  decide (¬ projectId = "") && decide (projectId = ANTIGRAVITY_DEFAULT_PROJECT_ID)

/-- `_upsert_account_from_auth` (src/auth.py lines 184-216) acting on the
loaded storage (`load_accounts() or AccountStorage()` is the caller's
job): looks up an existing record by `email` only when `auth.email` is
truthy, appends a fresh record (made active) when no record matches, and
otherwise rewrites the matching record in place and makes it active. -/
def upsertAccountFromAuth (storage : AccountStorage) (auth : AntigravityAuth)
    (nowMs : Int) : AccountStorage :=
  let existingIdx : Option Nat :=
    if optTruthy auth.email then
      storage.accounts.findIdx? (fun acc => acc.email = auth.email)
    else none
  match existingIdx with
  | none =>
    { storage with
        accounts := storage.accounts ++
          [{ email := auth.email, refreshToken := auth.refreshToken,
             projectId := auth.projectId, managedProjectId := auth.managedProjectId,
             addedAt := some nowMs, lastUsed := some nowMs }],
        activeIndex := (storage.accounts.length : Int) }
  | some i =>
    match storage.accounts[i]? with
    | none => storage
    | some old =>
      let updated : Account :=
        { email := if optTruthy auth.email then auth.email else old.email,
          refreshToken := auth.refreshToken,
          projectId := auth.projectId,
          managedProjectId := auth.managedProjectId,
          addedAt := some (old.addedAt.getD nowMs),
          lastUsed := some nowMs }
      { storage with accounts := storage.accounts.set i updated,
                     activeIndex := (i : Int) }

/-- `_clear_stored_refresh_token` (src/auth.py lines 219-239) acting on
the loaded storage: targets the record matching `auth.email` (when
truthy), falling back to the record at `active_index` when that index is
in range, and blanks its `refreshToken`; a missing storage, empty list or
missing target leaves everything untouched. -/
def clearStoredRefreshToken (auth : AntigravityAuth)
    (storage : Option AccountStorage) (nowMs : Int) : Option AccountStorage :=
  match storage with
  | none => none
  | some st =>
    if st.accounts = [] then some st
    else
      let byEmail : Option Nat :=
        if optTruthy auth.email then
          st.accounts.findIdx? (fun acc => acc.email = auth.email)
        else none
      let targetIdx : Option Nat :=
        match byEmail with
        | some i => some i
        | none =>
          if 0 ≤ st.activeIndex ∧ st.activeIndex < (st.accounts.length : Int) then
            some st.activeIndex.toNat
          else none
      match targetIdx with
      | none => some st
      | some i =>
        match st.accounts[i]? with
        | none => some st
        | some old =>
          some { st with accounts :=
            st.accounts.set i { old with refreshToken := "", lastUsed := some nowMs } }

/-- The parse of a failed token-endpoint response as the source consumes
it: HTTP status, the `(code, description)` pair extracted by
`_parse_oauth_error_payload`, and the raw body text. -/
structure TokenFailure where
  statusCode : Nat
  errorCode : String
  errorDescription : String
  text : String
deriving DecidableEq

/-- The token-endpoint exchange outcome as read off the `httpx` response:
either a failure, or the JSON fields the success path consumes
(`access_token` defaulted to `""`, optional `refresh_token` and
`expires_in` keys). -/
inductive TokenHttpResponse where
  | failure (f : TokenFailure)
  | success (accessToken : String) (refreshTokenField : Option String)
      (expiresIn : Option Int)
deriving DecidableEq

/-- The two error raise families of `refresh_access_token`: the
revocation branch and the generic failure branches, each a `ValueError`
distinguished by its message text. -/
inductive RefreshError where
  | revoked (message : String)
  | failed (message : String)
deriving DecidableEq

/-- ASCII lowercase of one character, the behaviour of Python
`str.lower()` on the ASCII error codes in play. -/
def lowerChar (c : Char) : Char :=
  if 'A' ≤ c ∧ c ≤ 'Z' then Char.ofNat (c.toNat + 32) else c

/-- ASCII model of Python `str.lower()` (`error_code.lower()`,
src/auth.py line 435). -/
def lowerAscii (s : String) : String :=
  String.mk (s.data.map lowerChar)

/-- `": ".join(part for part in (code, description) if part)` -/
def joinErrorDetails (code description : String) : String :=
  if code = "" then description
  else if description = "" then code
  else code ++ ": " ++ description

/-- The project-id recomputation of the `refresh_access_token` success
branch (src/auth.py lines 475-485): a missing or default project id is
replaced by the freshly fetched one when available, and a default one
that cannot be replaced becomes empty. -/
def projectAfterRefresh (auth : AntigravityAuth) (fetchedProject : String) : String :=
  let project0 := auth.projectId.getD ""
  if project0 = "" ∨ isDefaultProjectId project0 = true then
    if ¬ fetchedProject = "" then fetchedProject
    else if isDefaultProjectId project0 then ""
    else project0
  else project0

/-- The refreshed credential built by the `refresh_access_token` success
branch (src/auth.py lines 487-494): new access token and expiry, the
response refresh token defaulting to the prior one, identity fields
carried forward, and the recomputed project id (`None` when empty). -/
def refreshedCredential (auth : AntigravityAuth) (accessToken : String)
    (refreshTokenField : Option String) (expiresIn : Option Int)
    (startTime : Int) (fetchedProject : String) : AntigravityAuth :=
  { accessToken := accessToken,
    refreshToken := refreshTokenField.getD auth.refreshToken,
    expiresAt := startTime + expiresIn.getD 3600,
    email := auth.email,
    projectId :=
      (if projectAfterRefresh auth fetchedProject = "" then none
       else some (projectAfterRefresh auth fetchedProject)),
    managedProjectId := auth.managedProjectId }

/-- `refresh_access_token` (src/auth.py lines 415-501) with the network
and clock passed in explicitly: `resp` is the token-endpoint response,
`fetchedProject` the result of `fetch_project_id` (`""` when it fails or
finds nothing).  Returns the storage after the side effects
(`_clear_stored_refresh_token` on revocation, `_upsert_account_from_auth`
on success) together with the raised error or the refreshed credential. -/
def refreshAccessToken (auth : AntigravityAuth) (storage : Option AccountStorage)
    (resp : TokenHttpResponse) (startTime nowMs : Int) (fetchedProject : String) :
    Option AccountStorage × Except RefreshError AntigravityAuth :=
  if auth.refreshToken = "" then
    (storage, .error (.failed "Missing refresh token"))
  else
    match resp with
    | .failure f =>
      if lowerAscii f.errorCode = "invalid_grant" then
        let hint := match auth.email with
          | some e => if e = "" then "" else " (email=" ++ e ++ ")"
          | none => ""
        (clearStoredRefreshToken auth storage nowMs,
         .error (.revoked ("Refresh token revoked" ++ hint ++
           " - run antigravity login again")))
      else if ¬ f.errorCode = "" ∨ ¬ f.errorDescription = "" then
        (storage, .error (.failed ("Token refresh failed (" ++
          toString f.statusCode ++ "): " ++
          joinErrorDetails f.errorCode f.errorDescription)))
      else
        (storage, .error (.failed ("Token refresh failed: " ++ f.text)))
    | .success accessToken refreshTokenField expiresIn =>
      let refreshed := refreshedCredential auth accessToken refreshTokenField
        expiresIn startTime fetchedProject
      (some (upsertAccountFromAuth (storage.getD {}) refreshed nowMs),
       .ok refreshed)

/-- The credential the caller still holds after a refresh attempt: the
refreshed one on success, the unchanged input on a raised error
(`self.auth` is only reassigned when `refresh_access_token` returns). -/
def credentialAfterRefresh (auth : AntigravityAuth)
    (outcome : Except RefreshError AntigravityAuth) : AntigravityAuth :=
  match outcome with
  | .ok refreshed => refreshed
  | .error _ => auth

/-- The target-record lookup of `_upsert_codex_account`
(src/codex_auth.py lines 150-163): by `account_id` when truthy, falling
back to a lookup by `email` when truthy. -/
def codexUpsertTarget (storage : CodexAccountStorage) (auth : CodexAuth) :
    Option Nat :=
  let byId : Option Nat :=
    if optTruthy auth.accountId then
      storage.accounts.findIdx? (fun acc => acc.accountId = auth.accountId)
    else none
  match byId with
  | some i => some i
  | none =>
    if optTruthy auth.email then
      storage.accounts.findIdx? (fun acc => acc.email = auth.email)
    else none

/-- `_upsert_codex_account` (src/codex_auth.py lines 143-185) acting on
the loaded storage: a blank refresh token is a no-op; the target record
is looked up by `account_id` then by `email` (each only when truthy);
no match appends a fresh active record, a match is updated in place and
made active. -/
def upsertCodexAccount (storage : CodexAccountStorage) (auth : CodexAuth)
    (nowMs : Int) : CodexAccountStorage :=
  if auth.refreshToken = "" then storage
  else
    match codexUpsertTarget storage auth with
    | none =>
      { storage with
          accounts := storage.accounts ++
            [{ accountId := auth.accountId, refreshToken := auth.refreshToken,
               email := auth.email, addedAt := some nowMs, lastUsed := some nowMs }],
          activeIndex := (storage.accounts.length : Int) }
    | some i =>
      match storage.accounts[i]? with
      | none => storage
      | some old =>
        let updated : CodexAccount :=
          { accountId := if optTruthy auth.accountId then auth.accountId else old.accountId,
            refreshToken := auth.refreshToken,
            email := if optTruthy auth.email then auth.email else old.email,
            addedAt := some (old.addedAt.getD nowMs),
            lastUsed := some nowMs }
        { storage with accounts := storage.accounts.set i updated,
                       activeIndex := (i : Int) }

/-- The success branch of `refresh_codex_token` (src/codex_auth.py lines
437-448): the refreshed credential built from the token payload, with
identity fields carried forward (`extractedId`/`extractedEmail` stand for
the JWT claims pulled out of the new access token). -/
def refreshCodexSuccess (auth : CodexAuth) (accessToken : String)
    (refreshTokenField : Option String) (expiresIn : Option Int)
    (startTime : Int) (extractedId extractedEmail : Option String) : CodexAuth :=
  { accessToken := accessToken,
    refreshToken := refreshTokenField.getD auth.refreshToken,
    expiresAt := startTime + expiresIn.getD 3600,
    accountId := if optTruthy auth.accountId then auth.accountId else extractedId,
    email := if optTruthy auth.email then auth.email else extractedEmail }

/-- The success path of `refresh_codex_token` (src/codex_auth.py lines
437-455) including its persistence effect: the refreshed credential is
built and handed to `_upsert_codex_account` on the loaded storage
(`load_codex_accounts() or CodexAccountStorage()`), and both the stored
state and the returned credential are produced. -/
def refreshCodexTokenSuccess (auth : CodexAuth)
    (storage : Option CodexAccountStorage) (accessToken : String)
    (refreshTokenField : Option String) (expiresIn : Option Int)
    (startTime nowMs : Int) (extractedId extractedEmail : Option String) :
    CodexAccountStorage × CodexAuth :=
  let refreshed := refreshCodexSuccess auth accessToken refreshTokenField
    expiresIn startTime extractedId extractedEmail
  (upsertCodexAccount (storage.getD {}) refreshed nowMs, refreshed)

/-- `OAUTH_POLLING_SAFETY_MARGIN_MS` (src/copilot_auth.py line 28). -/
def OAUTH_POLLING_SAFETY_MARGIN_MS : Int := 3000

/-- `interval_seconds = max(1, int(interval or 5))`
(src/copilot_auth.py line 313). -/
def initialPollInterval (interval : Int) : Int :=
  max 1 (if interval = 0 then 5 else interval)

/-- The `slow_down` branch of `exchange_copilot_device_code`
(src/copilot_auth.py lines 372-377): bump by 5 seconds, overridden by a
positive server-supplied `interval`, clamped to at least 1. -/
def nextSlowDownInterval (intervalSeconds : Int) (serverInterval : Option Int) : Int :=
  let newInterval :=
    match serverInterval with
    | some s => if 0 < s then s else intervalSeconds + 5
    | none => intervalSeconds + 5
  max 1 newInterval

/-- Every poll sleep is
`interval_seconds + OAUTH_POLLING_SAFETY_MARGIN_MS / 1000`
(src/copilot_auth.py lines 370, 378, 383). -/
def pollSleepSeconds (intervalSeconds : Int) : Int :=
  intervalSeconds + OAUTH_POLLING_SAFETY_MARGIN_MS / 1000

/-- One `part` of a decoded antigravity SSE chunk:
`"text" in part and not part.get("thought")` decides whether it is
yielded. -/
structure SsePart where
  text : Option String := none
  thought : Bool := false
deriving DecidableEq

/-- One `data:` line of the antigravity stream as `ChatAntigravity._astream`
consumes it (src/chat_model.py lines 478-497): the `[DONE]` sentinel, a
JSON chunk carrying the candidate parts (empty when `candidates` is
empty), or an undecodable line. -/
inductive AgStreamEvent where
  | doneMarker
  | payload (parts : List SsePart)
  | undecodable
deriving DecidableEq

/-- The tail of `ChatAntigravity._astream` after the stream is opened
(src/chat_model.py lines 478-499): walks the `data:` lines, yields every
non-thought text part, stops successfully at `[DONE]`, and — the loop
being followed by a plain `return` — also ends successfully when the
stream runs out without a sentinel.  Returns the yielded chunks and
whether the call completed without raising. -/
def antigravityStreamChunks : List AgStreamEvent → List String × Bool
  | [] => ([], true)
  | .doneMarker :: _ => ([], true)
  | .undecodable :: rest => antigravityStreamChunks rest
  | .payload parts :: rest =>
    let texts := parts.filterMap (fun p => if p.thought then none else p.text)
    let result := antigravityStreamChunks rest
    (texts ++ result.1, result.2)

/-- One `data:` line of the codex stream as `ChatCodex._astream`
consumes it (src/codex_chat_model.py lines 660-702): the `[DONE]`
sentinel, a text delta (`none` when the delta field is not a string),
or any other decoded or undecodable event. -/
inductive CodexStreamEvent where
  | doneMarker
  | delta (text : Option String)
  | other
deriving DecidableEq

/-- The per-stream tail of `ChatCodex._astream` after the stream is
opened (src/codex_chat_model.py lines 660-702): yields every non-empty
delta (setting `saw_any_delta`), stops successfully at `[DONE]`; when
the lines run out, the call returns successfully iff some delta was
yielded and otherwise raises
`Codex API stream ended unexpectedly before completion event`. -/
def codexStreamWalk (sawAnyDelta : Bool) : List CodexStreamEvent → List String × Bool
  | [] => ([], sawAnyDelta)
  | .doneMarker :: _ => ([], true)
  | .other :: rest => codexStreamWalk sawAnyDelta rest
  | .delta none :: rest => codexStreamWalk sawAnyDelta rest
  | .delta (some s) :: rest =>
    if s = "" then codexStreamWalk sawAnyDelta rest
    else
      let result := codexStreamWalk true rest
      (s :: result.1, result.2)

/-- Whether a `[DONE]` sentinel occurs in the remaining stream lines. -/
def codexReachesDone : List CodexStreamEvent → Bool
  | [] => false
  | .doneMarker :: _ => true
  | _ :: rest => codexReachesDone rest

/-- The outcome of one `client.post` inside `ChatAntigravity._agenerate`:
a delivered HTTP response (status and body text; on a success status the
body stands for the parsed result handed back to the caller), or an
`httpx.RequestError` with no response at all. -/
inductive HttpOutcome where
  | response (status : Nat) (body : String)
  | transportError
deriving DecidableEq

/-- The environment of one `_agenerate` run that the control flow reads:
the resolved project override, the project carried by `self.auth`,
whether `self.auth` is present, whether a forced `refresh_access_token`
would succeed, and what `fetch_project_id` would return (`""` when it
fails or finds nothing).  The refreshed credential is modelled as
carrying the same project field. -/
structure ExecConfig where
  projectOverride : Option String := none
  authProject : Option String := none
  authPresent : Bool := true
  refreshWorks : Bool := false
  fetchedProject : String := ""
deriving DecidableEq

/-- The mutable state of `_agenerate` (src/chat_model.py lines 296-297):
`last_status_by_endpoint` as an insertion-ordered association list,
`last_http_error` as the status and body of the captured
`HTTPStatusError`, the current auth project, plus the trace of issued
requests `(attempt, endpoint)` used to state reachability facts. -/
structure ExecState where
  statuses : List (String × Nat) := []
  lastError : Option (Nat × String) := none
  authProject : Option String := none
  trace : List (Nat × String) := []
deriving DecidableEq

/-- `last_status_by_endpoint[endpoint] = status`: Python-dict update that
overwrites in place and otherwise appends in insertion order. -/
def updateStatus : List (String × Nat) → String → Nat → List (String × Nat)
  | [], e, v => [(e, v)]
  | (k, old) :: rest, e, v =>
    if k = e then (k, v) :: rest else (k, old) :: updateStatus rest e v

/-- The two terminal raises of `_agenerate` (src/chat_model.py lines
393-407): the aggregated error built when a `last_http_error` was
captured (overall status, per-endpoint last statuses, truncated body
snippet), and the plain `All Antigravity endpoints failed` error that
carries only the per-endpoint statuses. -/
inductive ExecError where
  | aggregated (code : Nat) (statuses : List (String × Nat)) (snippet : String)
  | allFailed (statuses : List (String × Nat))
deriving DecidableEq

/-- The overall status an exhaustion error surfaces, when it surfaces one. -/
def ExecError.surfacedCode : ExecError → Option Nat
  | .aggregated code _ _ => some code
  | .allFailed _ => none

/-- The response-body snippet an exhaustion error carries, when it
carries one. -/
def ExecError.bodySnippet : ExecError → Option String
  | .aggregated _ _ snippet => some snippet
  | .allFailed _ => none

/-- The per-endpoint status map an exhaustion error reports. -/
def ExecError.reportedStatuses : ExecError → List (String × Nat)
  | .aggregated _ statuses _ => statuses
  | .allFailed statuses => statuses

/-- Whitespace strip model of Python `str.strip()`: drop leading and
trailing whitespace characters. -/
def stripAscii (s : String) : String :=
  String.mk (((s.data.dropWhile Char.isWhitespace).reverse.dropWhile
    Char.isWhitespace).reverse)

/-- `body_snippet = (...).strip()` then truncation to 500 characters with
a trailing ellipsis (src/chat_model.py lines 397-399). -/
def truncateSnippet (s : String) : String :=
  let t := stripAscii s
  if 500 < t.length then String.mk (t.data.take 500) ++ "…" else t

/-- The exhaustion raise of `_agenerate` (src/chat_model.py lines
393-407): with a captured HTTP error, surface `429` when any endpoint's
last status was `429`, else that error's status, plus the truncated body
snippet; with no captured HTTP error, the plain all-failed error. -/
def buildExhaustionError (st : ExecState) : ExecError :=
  match st.lastError with
  | some (status, body) =>
    .aggregated
      (if st.statuses.any (fun p => p.2 = 429) then 429 else status)
      st.statuses (truncateSnippet body)
  | none => .allFailed st.statuses

/-- The inner endpoint loop of `_agenerate` (src/chat_model.py lines
316-355) for one outer attempt: per endpoint, record the status;
`429`/`>= 500` backs off and moves on; `401`/`403`/`404` captures the
error and moves on; any other `>= 400` status raises
`HTTPStatusError`, is caught, captured and moves on; a transport error
records nothing and moves on; any remaining status parses the response
and returns it.  (The `>= 400` except-branch also re-checks
`429, 500, 502, 503, 504`, but those statuses never reach
`raise_for_status`, so the check only re-selects `continue`.) -/
def runEndpointPass (behavior : Nat → String → HttpOutcome) (attempt : Nat) :
    List String → ExecState → ExecState × Option String
  | [], st => (st, none)
  | e :: rest, st =>
    let st0 := { st with trace := st.trace ++ [(attempt, e)] }
    match behavior attempt e with
    | .transportError => runEndpointPass behavior attempt rest st0
    | .response status body =>
      let st1 := { st0 with statuses := updateStatus st0.statuses e status }
      if status = 429 ∨ 500 ≤ status then
        runEndpointPass behavior attempt rest st1
      else if status = 401 ∨ status = 403 ∨ status = 404 then
        runEndpointPass behavior attempt rest
          { st1 with lastError := some (status, body) }
      else if 400 ≤ status then
        runEndpointPass behavior attempt rest
          { st1 with lastError := some (status, body) }
      else
        (st1, some body)

/-- The first-attempt recovery block of `_agenerate` (src/chat_model.py
lines 357-386): force one credential refresh when the captured error was
`401`/`403`, else fetch and attach a project id when none (or only the
default one) is attached and some endpoint's last status was `403`/`429`.
Returns the updated state and `did_retry`. -/
def attemptZeroRecovery (cfg : ExecConfig) (st : ExecState) : ExecState × Bool :=
  let didRetry : Bool :=
    match st.lastError with
    | some (status, _) =>
      decide (status = 401 ∨ status = 403) && cfg.authPresent && cfg.refreshWorks
    | none => false
  let blankProject : Bool :=
    match st.authProject with
    | none => true
    | some p => decide (p = "") || decide (p = ANTIGRAVITY_DEFAULT_PROJECT_ID)
  let needsProjectRefresh : Bool :=
    !didRetry && !(optTruthy cfg.projectOverride) && cfg.authPresent &&
      blankProject && st.statuses.any (fun p => p.2 = 403 ∨ p.2 = 429)
  if needsProjectRefresh && !(cfg.fetchedProject = "") then
    ({ st with authProject := some cfg.fetchedProject }, true)
  else (st, didRetry)

/-- The outer `for attempt in range(4)` of `_agenerate` (src/chat_model.py
lines 299-407), recursing over the remaining attempt indices: each pass
either returns a parsed result, or runs the attempt-0 recovery block
(whose `continue`, like the rate-limit backoff sleep, leads to the next
attempt either way) and goes on; an empty attempt list is exhaustion. -/
def runAttempts (cfg : ExecConfig) (behavior : Nat → String → HttpOutcome)
    (endpoints : List String) :
    List Nat → ExecState → ExecState × Except ExecError String
  | [], st => (st, .error (buildExhaustionError st))
  | attempt :: restAttempts, st =>
    match runEndpointPass behavior attempt endpoints st with
    | (st', some parsed) => (st', .ok parsed)
    | (st', none) =>
      let st'' := if attempt = 0 then (attemptZeroRecovery cfg st').1 else st'
      runAttempts cfg behavior endpoints restAttempts st''

/-- `ChatAntigravity._agenerate` (src/chat_model.py lines 288-407) as a
function of the per-attempt endpoint behavior: four outer attempts over
the ranked endpoint list, returning the final state (including the trace
of issued requests) and the parsed result or the terminal error.
`ChatAntigravity._astream` (lines 422-565) retries with the identical
skeleton. -/
def runExecutor (cfg : ExecConfig) (behavior : Nat → String → HttpOutcome)
    (endpoints : List String) : ExecState × Except ExecError String :=
  runAttempts cfg behavior endpoints [0, 1, 2, 3]
    { authProject := cfg.authProject }

/-- The inner endpoint loop of `ChatAntigravity._astream`
(src/chat_model.py lines 452-511) for one outer attempt: the identical
status branching as the non-streaming pass, except that on a success
status the opened SSE stream (`streams attempt e`) is consumed by the
line loop and the yielded chunks are the result. -/
def runStreamEndpointPass (behavior : Nat → String → HttpOutcome)
    (streams : Nat → String → List AgStreamEvent) (attempt : Nat) :
    List String → ExecState → ExecState × Option (List String)
  | [], st => (st, none)
  | e :: rest, st =>
    let st0 := { st with trace := st.trace ++ [(attempt, e)] }
    match behavior attempt e with
    | .transportError => runStreamEndpointPass behavior streams attempt rest st0
    | .response status body =>
      let st1 := { st0 with statuses := updateStatus st0.statuses e status }
      if status = 429 ∨ 500 ≤ status then
        runStreamEndpointPass behavior streams attempt rest st1
      else if status = 401 ∨ status = 403 ∨ status = 404 then
        runStreamEndpointPass behavior streams attempt rest
          { st1 with lastError := some (status, body) }
      else if 400 ≤ status then
        runStreamEndpointPass behavior streams attempt rest
          { st1 with lastError := some (status, body) }
      else
        (st1, some (antigravityStreamChunks (streams attempt e)).1)

/-- The outer `for attempt in range(4)` of `ChatAntigravity._astream`
(src/chat_model.py lines 434-565): the same skeleton as `runAttempts`
with the streaming pass, ending in the identical exhaustion raise
(lines 550-565). -/
def runStreamAttempts (cfg : ExecConfig) (behavior : Nat → String → HttpOutcome)
    (streams : Nat → String → List AgStreamEvent) (endpoints : List String) :
    List Nat → ExecState → ExecState × Except ExecError (List String)
  | [], st => (st, .error (buildExhaustionError st))
  | attempt :: restAttempts, st =>
    match runStreamEndpointPass behavior streams attempt endpoints st with
    | (st', some chunks) => (st', .ok chunks)
    | (st', none) =>
      let st'' := if attempt = 0 then (attemptZeroRecovery cfg st').1 else st'
      runStreamAttempts cfg behavior streams endpoints restAttempts st''

/-- `ChatAntigravity._astream` (src/chat_model.py lines 422-565) as a
function of the per-attempt endpoint behavior and the per-attempt SSE
streams: four outer attempts over the ranked endpoint list, returning
the final state and the yielded chunks or the terminal error. -/
def runStreamExecutor (cfg : ExecConfig) (behavior : Nat → String → HttpOutcome)
    (streams : Nat → String → List AgStreamEvent) (endpoints : List String) :
    ExecState × Except ExecError (List String) :=
  runStreamAttempts cfg behavior streams endpoints [0, 1, 2, 3]
    { authProject := cfg.authProject }

/-! ## Concrete scenario data used by the theorems below -/

/-- Storage with a negative `activeIndex` (as a hand-edited
`accounts.json` can produce) used to refute the unconditional reclamping
claim. -/
def storageNegIdx : AccountStorage :=
  { accounts := [{ email := some "a" }, { email := some "b" }], activeIndex := -1 }

/-- A one-account antigravity storage. -/
def storageOneA : AccountStorage :=
  { accounts := [{ email := some "a", refreshToken := "r1" }], activeIndex := 0 }

/-- An antigravity credential whose `email` is `None`. -/
def authNoIdentity : AntigravityAuth :=
  { accessToken := "at", refreshToken := "r2", expiresAt := 0 }

/-- A codex storage with one stored account. -/
def codexStorageOne : CodexAccountStorage :=
  { accounts := [{ accountId := some "id1", refreshToken := "r1" }], activeIndex := 0 }

/-- A codex credential with neither `account_id` nor `email`. -/
def codexAuthNoIdentity : CodexAuth :=
  { accessToken := "at", refreshToken := "r2", expiresAt := 0 }

/-- A two-account codex storage with a negative `activeIndex`. -/
def codexStorageNegIdx : CodexAccountStorage :=
  { accounts := [{ accountId := some "x" }, { accountId := some "y" }],
    activeIndex := -1 }

/-- A two-account copilot storage with a negative `activeIndex`. -/
def copilotStorageNegIdx : CopilotAccountStorage :=
  { accounts := [{ accountId := some "x" }, { accountId := some "y" }],
    activeIndex := -1 }

/-- An executor environment with a usable non-default project attached
to the credential, so none of the attempt-0 recovery paths fire. -/
def execCfgStd : ExecConfig := { authProject := some "proj" }

/-- Streams for the streaming-executor scenarios: no endpoint ever gets
far enough to produce SSE lines. -/
def noStreams : Nat → String → List AgStreamEvent := fun _ _ => []

/-- Endpoint behavior of the C1 scenario: A answers 500 on the first
outer attempt and 200 afterwards; B always answers 200. -/
def behaviorAThenB : Nat → String → HttpOutcome := fun attempt e =>
  if e = "A" then
    (if attempt = 0 then .response 500 "errA" else .response 200 "okA")
  else .response 200 "okB"

/-- Endpoint behavior where A answers 500 then 200 and B is unreachable. -/
def behaviorAOnly : Nat → String → HttpOutcome := fun attempt e =>
  if e = "A" then
    (if attempt = 0 then .response 500 "errA" else .response 200 "okA")
  else .transportError

/-- Endpoint behavior where every endpoint rate-limits on every attempt. -/
def behaviorAll429 : Nat → String → HttpOutcome := fun _ _ => .response 429 "rate"

/-- Endpoint behavior where A always rate-limits and B always answers a
sandbox-style 403 whose body is captured. -/
def behavior429And403 : Nat → String → HttpOutcome := fun _ e =>
  if e = "A" then .response 429 "rate" else .response 403 "body403"

/-! ## Claim C2: expiry predicate -/

/-- Claim C2 counterexample: a Copilot credential with `expiresAt = 0`
is a credential of one of the three types for which, at `now = 100` with
`buffer = 60`, the claimed formula `now ≥ expiresAt - buffer` holds, yet
`is_expired` returns `False` (src/copilot_auth.py lines 41-44
short-circuit falsy `expires_at`), so `isExpired(buffer)` is not true
exactly when `now ≥ expiresAt - buffer` for every credential type. -/
theorem copilot_zero_expiry_not_expired_cex :
    CopilotAuth.isExpired { accessToken := "t", expiresAt := 0 } 100 60 = false
    ∧ ((0 : Int) - 60 ≤ 100) := by
  constructor
  · rfl
  · decide

/-- Claim C2 (amended): Antigravity and Codex credentials are expired
exactly when `now ≥ expiresAt - buffer` (monotonically true from that
instant on), and so is a Copilot credential whose `expiresAt` is
non-zero; a Copilot credential with `expiresAt = 0` is never reported
expired. -/
theorem isExpired_threshold_amended (a : AntigravityAuth) (c : CodexAuth)
    (p : CopilotAuth) (now buffer : Int) :
    (a.isExpired now buffer = true ↔ a.expiresAt - buffer ≤ now)
    ∧ (∀ now', now ≤ now' → a.isExpired now buffer = true →
        a.isExpired now' buffer = true)
    ∧ (c.isExpired now buffer = true ↔ c.expiresAt - buffer ≤ now)
    ∧ (¬ p.expiresAt = 0 →
        (p.isExpired now buffer = true ↔ p.expiresAt - buffer ≤ now))
    ∧ (p.expiresAt = 0 → p.isExpired now buffer = false)
    ∧ (∀ now', now ≤ now' → p.isExpired now buffer = true →
        p.isExpired now' buffer = true) := by
  refine ⟨by simp [AntigravityAuth.isExpired], ?_, by simp [CodexAuth.isExpired],
    ?_, ?_, ?_⟩
  · intro now' hle h
    simp only [AntigravityAuth.isExpired, decide_eq_true_eq] at h ⊢
    omega
  · intro h0
    simp [CopilotAuth.isExpired, h0]
  · intro h0
    simp [CopilotAuth.isExpired, h0]
  · intro now' hle h
    simp only [CopilotAuth.isExpired] at h ⊢
    by_cases h0 : p.expiresAt = 0
    · simp [h0] at h
    · simp only [h0, if_false, decide_eq_true_eq] at h ⊢
      omega

/-- Claim C2 witness: the amended statement evaluated on concrete
credentials (an Antigravity credential exactly at its threshold and a
Copilot credential with zero expiry). -/
theorem isExpired_threshold_amended_witness :
    AntigravityAuth.isExpired
      { accessToken := "t", refreshToken := "r", expiresAt := 100 } 40 60 = true
    ∧ CopilotAuth.isExpired { accessToken := "t", expiresAt := 0 } 100 60 = false := by
  constructor
  · exact (isExpired_threshold_amended
      { accessToken := "t", refreshToken := "r", expiresAt := 100 }
      { accessToken := "t", refreshToken := "r", expiresAt := 0 }
      { accessToken := "t", expiresAt := 0 } 40 60).1.mpr (by decide)
  · exact (isExpired_threshold_amended
      { accessToken := "t", refreshToken := "r", expiresAt := 100 }
      { accessToken := "t", refreshToken := "r", expiresAt := 0 }
      { accessToken := "t", expiresAt := 0 } 40 60).2.2.2.2.1 rfl

/-! ## Claim C9: device-code slow_down handling -/

/-- Claim C9: on `slow_down` the next interval is the server-supplied
interval when present and positive, else the previous interval plus 5,
clamped to at least 1; every poll sleep adds the 3-second safety margin
(`OAUTH_POLLING_SAFETY_MARGIN_MS / 1000`); in particular a
server-supplied `interval = 10` yields a sleep of 13 = 10 + margin
seconds regardless of the previous interval. -/
theorem slow_down_interval_and_sleep (prev s : Int) (hs : 0 < s) :
    nextSlowDownInterval prev (some s) = max 1 s
    ∧ nextSlowDownInterval prev none = max 1 (prev + 5)
    ∧ nextSlowDownInterval prev (some 0) = max 1 (prev + 5)
    ∧ 1 ≤ nextSlowDownInterval prev (some s)
    ∧ 1 ≤ nextSlowDownInterval prev none
    ∧ pollSleepSeconds prev = prev + 3
    ∧ pollSleepSeconds (nextSlowDownInterval prev (some 10)) = 10 + 3 := by
  refine ⟨?_, rfl, by norm_num [nextSlowDownInterval], ?_, ?_, ?_, ?_⟩
  · simp [nextSlowDownInterval, hs]
  · simp only [nextSlowDownInterval, hs, if_pos]
    exact le_max_left 1 s
  · exact le_max_left 1 (prev + 5)
  · simp [pollSleepSeconds, OAUTH_POLLING_SAFETY_MARGIN_MS]
  · norm_num [nextSlowDownInterval, pollSleepSeconds, OAUTH_POLLING_SAFETY_MARGIN_MS]

/-- Claim C9 witness: the slow_down rule at previous interval 5 and
server-supplied interval 10. -/
theorem slow_down_interval_and_sleep_witness :
    (0 : Int) < 10 ∧ nextSlowDownInterval 5 (some 10) = max 1 10 := by
  exact ⟨by decide, (slow_down_interval_and_sleep 5 10 (by decide)).1⟩

/-! ## Claim C10: active-account fallback -/

/-- Claim C10: for each of the three providers, a non-empty account list
always yields an active account — an out-of-range `activeIndex` falls
back to the first account — and `get_active_account` returns `none` only
for an empty list. -/
theorem getActiveAccount_fallback (s : AccountStorage) (cs : CodexAccountStorage)
    (ps : CopilotAccountStorage) :
    (¬ s.accounts = [] → (s.getActiveAccount).isSome = true)
    ∧ (s.accounts = [] → s.getActiveAccount = none)
    ∧ (¬ (0 ≤ s.activeIndex ∧ s.activeIndex < (s.accounts.length : Int)) →
        s.getActiveAccount = s.accounts.head?)
    ∧ (¬ cs.accounts = [] → (cs.getActiveAccount).isSome = true)
    ∧ (¬ ps.accounts = [] → (ps.getActiveAccount).isSome = true) := by
  refine ⟨?_, ?_, ?_, ?_, ?_⟩
  · intro hne
    unfold AccountStorage.getActiveAccount
    split
    · rename_i hin
      have hlt : s.activeIndex.toNat < s.accounts.length := by omega
      simp [List.getElem?_eq_getElem hlt]
    · simpa [List.head?_isSome] using hne
  · intro hemp
    unfold AccountStorage.getActiveAccount
    simp [hemp]
  · intro hout
    unfold AccountStorage.getActiveAccount
    simp [hout]
  · intro hne
    unfold CodexAccountStorage.getActiveAccount
    split
    · rename_i hin
      have hlt : cs.activeIndex.toNat < cs.accounts.length := by omega
      simp [List.getElem?_eq_getElem hlt]
    · simpa [List.head?_isSome] using hne
  · intro hne
    unfold CopilotAccountStorage.getActiveAccount
    split
    · rename_i hin
      have hlt : ps.activeIndex.toNat < ps.accounts.length := by omega
      simp [List.getElem?_eq_getElem hlt]
    · simpa [List.head?_isSome] using hne

/-- Claim C10 witness: a storage whose `activeIndex` is out of range
still reports an active account (the first one). -/
theorem getActiveAccount_fallback_witness :
    ¬ ([{ email := some "a" } ] : List Account) = []
    ∧ (AccountStorage.getActiveAccount
        { accounts := [{ email := some "a" }], activeIndex := 7 }).isSome = true := by
  refine ⟨by simp, ?_⟩
  exact (getActiveAccount_fallback
    { accounts := [{ email := some "a" }], activeIndex := 7 } {} {}).1 (by simp)

/-! ## Claim C8: remove and index reclamping -/

/-- Claim C8 counterexample: removing the second account from a storage
whose `activeIndex` is `-1` succeeds and leaves one account, yet the
resulting `activeIndex` is still `-1`, outside `[0, len-1]` — each of
the three removes only clamps when the index falls off the upper end
(src/auth.py lines 640-641, src/codex_auth.py lines 596-597,
src/copilot_auth.py lines 438-439). -/
theorem removeAccount_negative_index_cex :
    (removeAccount storageNegIdx "b").2 = true
    ∧ (removeAccount storageNegIdx "b").1.accounts.length = 1
    ∧ ¬ 0 ≤ (removeAccount storageNegIdx "b").1.activeIndex
    ∧ (removeCodexAccount codexStorageNegIdx "y").2 = true
    ∧ (removeCodexAccount codexStorageNegIdx "y").1.accounts.length = 1
    ∧ ¬ 0 ≤ (removeCodexAccount codexStorageNegIdx "y").1.activeIndex
    ∧ (removeCopilotAccount copilotStorageNegIdx "y").2 = true
    ∧ (removeCopilotAccount copilotStorageNegIdx "y").1.accounts.length = 1
    ∧ ¬ 0 ≤ (removeCopilotAccount copilotStorageNegIdx "y").1.activeIndex := by
  refine ⟨rfl, rfl, by decide, rfl, rfl, by decide, rfl, rfl, by decide⟩

/-- The `remove_account` part of the amended removal claim, for the
antigravity store. -/
theorem removeAccount_spec (s : AccountStorage) (email : String)
    (hpre : 0 ≤ s.activeIndex) :
    ((removeAccount s email).2 = true ↔
        ∃ acc ∈ s.accounts, acc.email = some email)
    ∧ ((removeAccount s email).2 = true →
        ((removeAccount s email).1.accounts = [] →
            (removeAccount s email).1.activeIndex = 0)
        ∧ (¬ (removeAccount s email).1.accounts = [] →
            0 ≤ (removeAccount s email).1.activeIndex
            ∧ (removeAccount s email).1.activeIndex <
                ((removeAccount s email).1.accounts.length : Int)))
    ∧ ((removeAccount s email).2 = false → (removeAccount s email).1 = s) := by
  cases hF : s.accounts.findIdx? (fun acc => decide (acc.email = some email)) with
  | none =>
    have heq : removeAccount s email = (s, false) := by
      unfold removeAccount
      rw [hF]
    rw [heq]
    simp only [List.findIdx?_eq_none_iff, decide_eq_false_iff_not] at hF
    refine ⟨?_, by simp, by simp⟩
    constructor
    · intro h
      simp at h
    · rintro ⟨acc, hmem, hacc⟩
      exact absurd hacc (hF acc hmem)
  | some i =>
    have hi : i < s.accounts.length :=
      (List.findIdx?_eq_some_iff_findIdx_eq.mp hF).1
    have heq : removeAccount s email =
        (({ s with
            accounts := s.accounts.eraseIdx i,
            activeIndex :=
              (if ((s.accounts.eraseIdx i).length : Int) ≤ s.activeIndex then
                max 0 (((s.accounts.eraseIdx i).length : Int) - 1)
              else s.activeIndex) } : AccountStorage), true) := by
      unfold removeAccount
      rw [hF]
    rw [heq]
    dsimp only
    refine ⟨?_, ?_, by simp⟩
    · constructor
      · intro _
        by_contra hno
        push_neg at hno
        have hnone : s.accounts.findIdx?
            (fun acc => decide (acc.email = some email)) = none :=
          List.findIdx?_eq_none_iff.mpr (fun x hx => by simpa using hno x hx)
        rw [hnone] at hF
        cases hF
      · intro _
        rfl
    · intro _
      constructor
      · intro hemp
        rw [hemp]
        simp only [List.length_nil, Nat.cast_zero]
        rw [if_pos hpre]
        decide
      · intro hne
        have hlen : 0 < (s.accounts.eraseIdx i).length :=
          List.length_pos.mpr hne
        by_cases hcl : ((s.accounts.eraseIdx i).length : Int) ≤ s.activeIndex
        · rw [if_pos hcl]
          have hm : (0 : Int) ⊔ (((s.accounts.eraseIdx i).length : Int) - 1) =
              ((s.accounts.eraseIdx i).length : Int) - 1 :=
            max_eq_right (by omega)
          rw [hm]
          omega
        · rw [if_neg hcl]
          exact ⟨hpre, by omega⟩

/-- The `remove_codex_account` part of the amended removal claim. -/
theorem removeCodexAccount_spec (s : CodexAccountStorage) (accountId : String)
    (hpre : 0 ≤ s.activeIndex) :
    ((removeCodexAccount s accountId).2 = true ↔
        ∃ acc ∈ s.accounts, acc.accountId = some accountId)
    ∧ ((removeCodexAccount s accountId).2 = true →
        ((removeCodexAccount s accountId).1.accounts = [] →
            (removeCodexAccount s accountId).1.activeIndex = 0)
        ∧ (¬ (removeCodexAccount s accountId).1.accounts = [] →
            0 ≤ (removeCodexAccount s accountId).1.activeIndex
            ∧ (removeCodexAccount s accountId).1.activeIndex <
                ((removeCodexAccount s accountId).1.accounts.length : Int)))
    ∧ ((removeCodexAccount s accountId).2 = false →
        (removeCodexAccount s accountId).1 = s) := by
  cases hF : s.accounts.findIdx?
      (fun acc => decide (acc.accountId = some accountId)) with
  | none =>
    have heq : removeCodexAccount s accountId = (s, false) := by
      unfold removeCodexAccount
      rw [hF]
    rw [heq]
    simp only [List.findIdx?_eq_none_iff, decide_eq_false_iff_not] at hF
    refine ⟨?_, by simp, by simp⟩
    constructor
    · intro h
      simp at h
    · rintro ⟨acc, hmem, hacc⟩
      exact absurd hacc (hF acc hmem)
  | some i =>
    have hi : i < s.accounts.length :=
      (List.findIdx?_eq_some_iff_findIdx_eq.mp hF).1
    have heq : removeCodexAccount s accountId =
        (({ s with
            accounts := s.accounts.eraseIdx i,
            activeIndex :=
              (if ((s.accounts.eraseIdx i).length : Int) ≤ s.activeIndex then
                max 0 (((s.accounts.eraseIdx i).length : Int) - 1)
              else s.activeIndex) } : CodexAccountStorage), true) := by
      unfold removeCodexAccount
      rw [hF]
    rw [heq]
    dsimp only
    refine ⟨?_, ?_, by simp⟩
    · constructor
      · intro _
        by_contra hno
        push_neg at hno
        have hnone : s.accounts.findIdx?
            (fun acc => decide (acc.accountId = some accountId)) = none :=
          List.findIdx?_eq_none_iff.mpr (fun x hx => by simpa using hno x hx)
        rw [hnone] at hF
        cases hF
      · intro _
        rfl
    · intro _
      constructor
      · intro hemp
        rw [hemp]
        simp only [List.length_nil, Nat.cast_zero]
        rw [if_pos hpre]
        decide
      · intro hne
        have hlen : 0 < (s.accounts.eraseIdx i).length :=
          List.length_pos.mpr hne
        by_cases hcl : ((s.accounts.eraseIdx i).length : Int) ≤ s.activeIndex
        · rw [if_pos hcl]
          have hm : (0 : Int) ⊔ (((s.accounts.eraseIdx i).length : Int) - 1) =
              ((s.accounts.eraseIdx i).length : Int) - 1 :=
            max_eq_right (by omega)
          rw [hm]
          omega
        · rw [if_neg hcl]
          exact ⟨hpre, by omega⟩

/-- The `remove_copilot_account` part of the amended removal claim. -/
theorem removeCopilotAccount_spec (s : CopilotAccountStorage) (accountId : String)
    (hpre : 0 ≤ s.activeIndex) :
    ((removeCopilotAccount s accountId).2 = true ↔
        ∃ acc ∈ s.accounts, acc.accountId = some accountId)
    ∧ ((removeCopilotAccount s accountId).2 = true →
        ((removeCopilotAccount s accountId).1.accounts = [] →
            (removeCopilotAccount s accountId).1.activeIndex = 0)
        ∧ (¬ (removeCopilotAccount s accountId).1.accounts = [] →
            0 ≤ (removeCopilotAccount s accountId).1.activeIndex
            ∧ (removeCopilotAccount s accountId).1.activeIndex <
                ((removeCopilotAccount s accountId).1.accounts.length : Int)))
    ∧ ((removeCopilotAccount s accountId).2 = false →
        (removeCopilotAccount s accountId).1 = s) := by
  cases hF : s.accounts.findIdx?
      (fun acc => decide (acc.accountId = some accountId)) with
  | none =>
    have heq : removeCopilotAccount s accountId = (s, false) := by
      unfold removeCopilotAccount
      rw [hF]
    rw [heq]
    simp only [List.findIdx?_eq_none_iff, decide_eq_false_iff_not] at hF
    refine ⟨?_, by simp, by simp⟩
    constructor
    · intro h
      simp at h
    · rintro ⟨acc, hmem, hacc⟩
      exact absurd hacc (hF acc hmem)
  | some i =>
    have hi : i < s.accounts.length :=
      (List.findIdx?_eq_some_iff_findIdx_eq.mp hF).1
    have heq : removeCopilotAccount s accountId =
        (({ s with
            accounts := s.accounts.eraseIdx i,
            activeIndex :=
              (if ((s.accounts.eraseIdx i).length : Int) ≤ s.activeIndex then
                max 0 (((s.accounts.eraseIdx i).length : Int) - 1)
              else s.activeIndex) } : CopilotAccountStorage), true) := by
      unfold removeCopilotAccount
      rw [hF]
    rw [heq]
    dsimp only
    refine ⟨?_, ?_, by simp⟩
    · constructor
      · intro _
        by_contra hno
        push_neg at hno
        have hnone : s.accounts.findIdx?
            (fun acc => decide (acc.accountId = some accountId)) = none :=
          List.findIdx?_eq_none_iff.mpr (fun x hx => by simpa using hno x hx)
        rw [hnone] at hF
        cases hF
      · intro _
        rfl
    · intro _
      constructor
      · intro hemp
        rw [hemp]
        simp only [List.length_nil, Nat.cast_zero]
        rw [if_pos hpre]
        decide
      · intro hne
        have hlen : 0 < (s.accounts.eraseIdx i).length :=
          List.length_pos.mpr hne
        by_cases hcl : ((s.accounts.eraseIdx i).length : Int) ≤ s.activeIndex
        · rw [if_pos hcl]
          have hm : (0 : Int) ⊔ (((s.accounts.eraseIdx i).length : Int) - 1) =
              ((s.accounts.eraseIdx i).length : Int) - 1 :=
            max_eq_right (by omega)
          rw [hm]
          omega
        · rw [if_neg hcl]
          exact ⟨hpre, by omega⟩

/-- Claim C8 (amended): for each of the three providers (antigravity,
codex, copilot) and a storage whose `activeIndex` is non-negative —
which every code path maintains — a successful remove leaves
`activeIndex` within `[0, len-1]` when accounts remain and at `0` on an
empty list, `remove` returns `true` exactly when an account with the
identity existed, and a failed remove leaves the storage unchanged. -/
theorem removeAccount_reclamps (s : AccountStorage) (email : String)
    (cs : CodexAccountStorage) (cid : String)
    (ps : CopilotAccountStorage) (pid : String)
    (hpre : 0 ≤ s.activeIndex) (hcpre : 0 ≤ cs.activeIndex)
    (hppre : 0 ≤ ps.activeIndex) :
    (((removeAccount s email).2 = true ↔
        ∃ acc ∈ s.accounts, acc.email = some email)
      ∧ ((removeAccount s email).2 = true →
          ((removeAccount s email).1.accounts = [] →
              (removeAccount s email).1.activeIndex = 0)
          ∧ (¬ (removeAccount s email).1.accounts = [] →
              0 ≤ (removeAccount s email).1.activeIndex
              ∧ (removeAccount s email).1.activeIndex <
                  ((removeAccount s email).1.accounts.length : Int)))
      ∧ ((removeAccount s email).2 = false → (removeAccount s email).1 = s))
    ∧ (((removeCodexAccount cs cid).2 = true ↔
        ∃ acc ∈ cs.accounts, acc.accountId = some cid)
      ∧ ((removeCodexAccount cs cid).2 = true →
          ((removeCodexAccount cs cid).1.accounts = [] →
              (removeCodexAccount cs cid).1.activeIndex = 0)
          ∧ (¬ (removeCodexAccount cs cid).1.accounts = [] →
              0 ≤ (removeCodexAccount cs cid).1.activeIndex
              ∧ (removeCodexAccount cs cid).1.activeIndex <
                  ((removeCodexAccount cs cid).1.accounts.length : Int)))
      ∧ ((removeCodexAccount cs cid).2 = false →
          (removeCodexAccount cs cid).1 = cs))
    ∧ (((removeCopilotAccount ps pid).2 = true ↔
        ∃ acc ∈ ps.accounts, acc.accountId = some pid)
      ∧ ((removeCopilotAccount ps pid).2 = true →
          ((removeCopilotAccount ps pid).1.accounts = [] →
              (removeCopilotAccount ps pid).1.activeIndex = 0)
          ∧ (¬ (removeCopilotAccount ps pid).1.accounts = [] →
              0 ≤ (removeCopilotAccount ps pid).1.activeIndex
              ∧ (removeCopilotAccount ps pid).1.activeIndex <
                  ((removeCopilotAccount ps pid).1.accounts.length : Int)))
      ∧ ((removeCopilotAccount ps pid).2 = false →
          (removeCopilotAccount ps pid).1 = ps)) := by
  exact ⟨removeAccount_spec s email hpre,
    removeCodexAccount_spec cs cid hcpre,
    removeCopilotAccount_spec ps pid hppre⟩

/-- Claim C8 witness: removing the only account of a well-formed storage
of each provider. -/
theorem removeAccount_reclamps_witness :
    (0 : Int) ≤ (0 : Int)
    ∧ ((removeAccount { accounts := [{ email := some "a" }], activeIndex := 0 }
          "a").2 = true ↔
        ∃ acc ∈ ([{ email := some "a" }] : List Account),
          acc.email = some "a")
    ∧ ((removeCodexAccount
          { accounts := [{ accountId := some "c" }], activeIndex := 0 }
          "c").2 = true ↔
        ∃ acc ∈ ([{ accountId := some "c" }] : List CodexAccount),
          acc.accountId = some "c")
    ∧ ((removeCopilotAccount
          { accounts := [{ accountId := some "p" }], activeIndex := 0 }
          "p").2 = true ↔
        ∃ acc ∈ ([{ accountId := some "p" }] : List CopilotAccount),
          acc.accountId = some "p") := by
  have h := removeAccount_reclamps
    { accounts := [{ email := some "a" }], activeIndex := 0 } "a"
    { accounts := [{ accountId := some "c" }], activeIndex := 0 } "c"
    { accounts := [{ accountId := some "p" }], activeIndex := 0 } "p"
    (by decide) (by decide) (by decide)
  exact ⟨le_refl 0, h.1.1, h.2.1.1, h.2.2.1⟩

/-! ## Claim C5: upsert by identity -/

/-- The update branch of `_upsert_account_from_auth` as an equation: with
a truthy email whose lookup finds index `i`, the record at `i` is
rewritten in place and made active. -/
theorem upsertAccountFromAuth_eq_set (t : AccountStorage) (auth : AntigravityAuth)
    (m : Int) (i : Nat) (hT : optTruthy auth.email = true)
    (hF : t.accounts.findIdx? (fun acc => decide (acc.email = auth.email)) = some i)
    (hi : i < t.accounts.length) :
    upsertAccountFromAuth t auth m =
      { t with
        accounts := t.accounts.set i
          { email := auth.email,
            refreshToken := auth.refreshToken,
            projectId := auth.projectId,
            managedProjectId := auth.managedProjectId,
            addedAt := some ((t.accounts[i]).addedAt.getD m),
            lastUsed := some m },
        activeIndex := (i : Int) } := by
  unfold upsertAccountFromAuth
  simp [hT, hF, List.getElem?_eq_getElem hi]

/-- Both branches of `_upsert_account_from_auth` make the written record
the active one and give it the credential's refresh token; with a truthy
email the written record also carries that email. -/
theorem upsertAccountFromAuth_active (s : AccountStorage) (auth : AntigravityAuth)
    (n : Int) :
    0 ≤ (upsertAccountFromAuth s auth n).activeIndex
    ∧ (upsertAccountFromAuth s auth n).activeIndex <
        ((upsertAccountFromAuth s auth n).accounts.length : Int)
    ∧ ((upsertAccountFromAuth s auth n).accounts[
        (upsertAccountFromAuth s auth n).activeIndex.toNat]?).map
        Account.refreshToken = some auth.refreshToken
    ∧ (optTruthy auth.email = true →
        ((upsertAccountFromAuth s auth n).accounts[
          (upsertAccountFromAuth s auth n).activeIndex.toNat]?).map
          Account.email = some auth.email) := by
  by_cases hT : optTruthy auth.email = true
  · cases hF : s.accounts.findIdx? (fun acc => decide (acc.email = auth.email)) with
    | none =>
      have heq : upsertAccountFromAuth s auth n =
          { s with
            accounts := s.accounts ++
              [{ email := auth.email, refreshToken := auth.refreshToken,
                 projectId := auth.projectId,
                 managedProjectId := auth.managedProjectId,
                 addedAt := some n, lastUsed := some n }],
            activeIndex := (s.accounts.length : Int) } := by
        unfold upsertAccountFromAuth
        simp [hT, hF]
      rw [heq]
      refine ⟨Int.natCast_nonneg _, ?_, ?_, ?_⟩
      · simp only [List.length_append, List.length_cons, List.length_nil]
        push_cast
        omega
      · simp [Int.toNat_natCast, List.getElem?_concat_length]
      · intro _
        simp [Int.toNat_natCast, List.getElem?_concat_length]
    | some i =>
      have hi : i < s.accounts.length :=
        (List.findIdx?_eq_some_iff_findIdx_eq.mp hF).1
      have heq : upsertAccountFromAuth s auth n =
          { s with
            accounts := s.accounts.set i
              { email := auth.email,
                refreshToken := auth.refreshToken,
                projectId := auth.projectId,
                managedProjectId := auth.managedProjectId,
                addedAt := some ((s.accounts[i]).addedAt.getD n),
                lastUsed := some n },
            activeIndex := (i : Int) } := by
        unfold upsertAccountFromAuth
        simp [hT, hF, List.getElem?_eq_getElem hi]
      rw [heq]
      have hset : i < (s.accounts.set i
          { email := auth.email,
            refreshToken := auth.refreshToken,
            projectId := auth.projectId,
            managedProjectId := auth.managedProjectId,
            addedAt := some ((s.accounts[i]).addedAt.getD n),
            lastUsed := some n }).length := by
        rw [List.length_set]
        exact hi
      refine ⟨Int.natCast_nonneg _, ?_, ?_, ?_⟩
      · simp only [List.length_set]
        exact_mod_cast hi
      · simp [Int.toNat_natCast, List.getElem?_set_self (by rw [List.length_set] at hset; exact hset)]
      · intro _
        simp [Int.toNat_natCast, List.getElem?_set_self (by rw [List.length_set] at hset; exact hset)]
  · have heq : upsertAccountFromAuth s auth n =
        { s with
          accounts := s.accounts ++
            [{ email := auth.email, refreshToken := auth.refreshToken,
               projectId := auth.projectId,
               managedProjectId := auth.managedProjectId,
               addedAt := some n, lastUsed := some n }],
          activeIndex := (s.accounts.length : Int) } := by
      unfold upsertAccountFromAuth
      simp [hT]
    rw [heq]
    refine ⟨Int.natCast_nonneg _, ?_, ?_, ?_⟩
    · simp only [List.length_append, List.length_cons, List.length_nil]
      push_cast
      omega
    · simp [Int.toNat_natCast, List.getElem?_concat_length]
    · intro h
      exact absurd h hT

/-- A `codexUpsertTarget` hit is always an index into the account list. -/
theorem codexUpsertTarget_lt (s : CodexAccountStorage) (auth : CodexAuth) (i : Nat)
    (h : codexUpsertTarget s auth = some i) : i < s.accounts.length := by
  unfold codexUpsertTarget at h
  dsimp only at h
  by_cases hT : optTruthy auth.accountId = true
  · rw [if_pos hT] at h
    cases hF : s.accounts.findIdx?
        (fun acc => decide (acc.accountId = auth.accountId)) with
    | some j =>
      rw [hF] at h
      dsimp only at h
      cases h
      exact (List.findIdx?_eq_some_iff_findIdx_eq.mp hF).1
    | none =>
      rw [hF] at h
      dsimp only at h
      by_cases hE : optTruthy auth.email = true
      · rw [if_pos hE] at h
        exact (List.findIdx?_eq_some_iff_findIdx_eq.mp h).1
      · rw [if_neg hE] at h
        cases h
  · rw [if_neg hT] at h
    dsimp only at h
    by_cases hE : optTruthy auth.email = true
    · rw [if_pos hE] at h
      exact (List.findIdx?_eq_some_iff_findIdx_eq.mp h).1
    · rw [if_neg hE] at h
      cases h

/-- The append branch of `_upsert_codex_account` as an equation. -/
theorem upsertCodexAccount_eq_append (s : CodexAccountStorage) (auth : CodexAuth)
    (n : Int) (hrt : ¬ auth.refreshToken = "")
    (hTgt : codexUpsertTarget s auth = none) :
    upsertCodexAccount s auth n =
      { s with
        accounts := s.accounts ++
          [{ accountId := auth.accountId, refreshToken := auth.refreshToken,
             email := auth.email, addedAt := some n, lastUsed := some n }],
        activeIndex := (s.accounts.length : Int) } := by
  unfold upsertCodexAccount
  rw [if_neg hrt, hTgt]

/-- The update branch of `_upsert_codex_account` as an equation. -/
theorem upsertCodexAccount_eq_set (s : CodexAccountStorage) (auth : CodexAuth)
    (n : Int) (i : Nat) (hrt : ¬ auth.refreshToken = "")
    (hTgt : codexUpsertTarget s auth = some i) (hi : i < s.accounts.length) :
    upsertCodexAccount s auth n =
      { s with
        accounts := s.accounts.set i
          { accountId :=
              (if optTruthy auth.accountId then auth.accountId
               else (s.accounts[i]).accountId),
            refreshToken := auth.refreshToken,
            email :=
              (if optTruthy auth.email then auth.email
               else (s.accounts[i]).email),
            addedAt := some ((s.accounts[i]).addedAt.getD n),
            lastUsed := some n },
        activeIndex := (i : Int) } := by
  unfold upsertCodexAccount
  rw [if_neg hrt, hTgt]
  simp [List.getElem?_eq_getElem hi]

/-- Both branches of `_upsert_codex_account` (on a non-blank refresh
token) make the written record the active one and give it the
credential's refresh token; with a truthy `account_id` the written
record also carries that id. -/
theorem upsertCodexAccount_active (s : CodexAccountStorage) (auth : CodexAuth)
    (n : Int) (hrt : ¬ auth.refreshToken = "") :
    0 ≤ (upsertCodexAccount s auth n).activeIndex
    ∧ (upsertCodexAccount s auth n).activeIndex <
        ((upsertCodexAccount s auth n).accounts.length : Int)
    ∧ ((upsertCodexAccount s auth n).accounts[
        (upsertCodexAccount s auth n).activeIndex.toNat]?).map
        CodexAccount.refreshToken = some auth.refreshToken
    ∧ (optTruthy auth.accountId = true →
        ((upsertCodexAccount s auth n).accounts[
          (upsertCodexAccount s auth n).activeIndex.toNat]?).map
          CodexAccount.accountId = some auth.accountId) := by
  cases hTgt : codexUpsertTarget s auth with
  | none =>
    rw [upsertCodexAccount_eq_append s auth n hrt hTgt]
    refine ⟨Int.natCast_nonneg _, ?_, ?_, ?_⟩
    · simp only [List.length_append, List.length_cons, List.length_nil]
      push_cast
      omega
    · simp [Int.toNat_natCast, List.getElem?_concat_length]
    · intro _
      simp [Int.toNat_natCast, List.getElem?_concat_length]
  | some i =>
    have hi := codexUpsertTarget_lt s auth i hTgt
    rw [upsertCodexAccount_eq_set s auth n i hrt hTgt hi]
    refine ⟨Int.natCast_nonneg _, ?_, ?_, ?_⟩
    · simp only [List.length_set]
      exact_mod_cast hi
    · simp [Int.toNat_natCast, List.getElem?_set_self hi]
    · intro hT
      simp [Int.toNat_natCast, List.getElem?_set_self hi, hT]

/-- Claim C5 counterexample: upserting a credential with no account
identity into a store whose active record exists does NOT fall back to
updating the active record — both `_upsert_account_from_auth` and
`_upsert_codex_account` append a second record (the active record keeps
its old refresh token and the list grows to two). -/
theorem upsert_unknown_identity_appends_cex :
    (upsertAccountFromAuth storageOneA authNoIdentity 7).accounts.length = 2
    ∧ ((upsertAccountFromAuth storageOneA authNoIdentity 7).accounts[0]?).map
        Account.refreshToken = some "r1"
    ∧ (upsertAccountFromAuth storageOneA authNoIdentity 7).activeIndex = 1
    ∧ (upsertCodexAccount codexStorageOne codexAuthNoIdentity 7).accounts.length = 2
    ∧ ((upsertCodexAccount codexStorageOne codexAuthNoIdentity 7).accounts[0]?).map
        CodexAccount.refreshToken = some "r1"
    ∧ (upsertCodexAccount codexStorageOne codexAuthNoIdentity 7).activeIndex = 1 := by
  decide

/-- Claim C5 (amended): records are located by account identity only —
an antigravity credential with a known (truthy) email, and a codex
credential with a known (truthy) `account_id` and a non-blank refresh
token, are upserted idempotently: the second upsert updates the one
matching record and never appends a duplicate, and the upserted record
(carrying that identity and the new refresh token) becomes the active
one.  A credential with no identity appends a fresh record instead of
falling back to the active one (see the counterexample). -/
theorem upsert_idempotent_by_identity (s : AccountStorage) (auth : AntigravityAuth)
    (n n' : Int) (e : String) (cs : CodexAccountStorage) (cauth : CodexAuth)
    (m m' : Int) (cid : String)
    (he : auth.email = some e) (hne : ¬ e = "")
    (hcid : cauth.accountId = some cid) (hcidne : ¬ cid = "")
    (hcrt : ¬ cauth.refreshToken = "") :
    ((upsertAccountFromAuth (upsertAccountFromAuth s auth n) auth n').accounts.length
        = (upsertAccountFromAuth s auth n).accounts.length
      ∧ 0 ≤ (upsertAccountFromAuth s auth n).activeIndex
      ∧ (upsertAccountFromAuth s auth n).activeIndex <
          ((upsertAccountFromAuth s auth n).accounts.length : Int)
      ∧ ((upsertAccountFromAuth s auth n).accounts[
          (upsertAccountFromAuth s auth n).activeIndex.toNat]?).map
          Account.email = some (some e)
      ∧ ((upsertAccountFromAuth s auth n).accounts[
          (upsertAccountFromAuth s auth n).activeIndex.toNat]?).map
          Account.refreshToken = some auth.refreshToken)
    ∧ ((upsertCodexAccount (upsertCodexAccount cs cauth m) cauth m').accounts.length
        = (upsertCodexAccount cs cauth m).accounts.length
      ∧ 0 ≤ (upsertCodexAccount cs cauth m).activeIndex
      ∧ (upsertCodexAccount cs cauth m).activeIndex <
          ((upsertCodexAccount cs cauth m).accounts.length : Int)
      ∧ ((upsertCodexAccount cs cauth m).accounts[
          (upsertCodexAccount cs cauth m).activeIndex.toNat]?).map
          CodexAccount.accountId = some (some cid)
      ∧ ((upsertCodexAccount cs cauth m).accounts[
          (upsertCodexAccount cs cauth m).activeIndex.toNat]?).map
          CodexAccount.refreshToken = some cauth.refreshToken) := by
  constructor
  · have hT : optTruthy auth.email = true := by
      simp [optTruthy, he, hne]
    obtain ⟨h0, hlt, htok, hmail⟩ := upsertAccountFromAuth_active s auth n
    have hmail' := hmail hT
    refine ⟨?_, h0, hlt, by rw [he] at hmail'; exact hmail', htok⟩
    obtain ⟨acc, hacc, hacce⟩ : ∃ acc,
        (upsertAccountFromAuth s auth n).accounts[
          (upsertAccountFromAuth s auth n).activeIndex.toNat]? = some acc
        ∧ acc.email = auth.email := by
      cases hq : (upsertAccountFromAuth s auth n).accounts[
          (upsertAccountFromAuth s auth n).activeIndex.toNat]? with
      | none => rw [hq] at hmail'; simp at hmail'
      | some acc =>
        rw [hq] at hmail'
        exact ⟨acc, rfl, by simpa using hmail'⟩
    have hmem : acc ∈ (upsertAccountFromAuth s auth n).accounts := by
      obtain ⟨hltn, hh⟩ := List.getElem?_eq_some.mp hacc
      exact hh ▸ List.getElem_mem hltn
    have hex : ∃ x ∈ (upsertAccountFromAuth s auth n).accounts,
        (fun acc => decide (acc.email = auth.email)) x = true :=
      ⟨acc, hmem, by simp [hacce]⟩
    have hF2 := List.findIdx?_eq_some_of_exists hex
    set j := List.findIdx (fun acc => decide (acc.email = auth.email))
      (upsertAccountFromAuth s auth n).accounts with hj
    have hjlt : j < (upsertAccountFromAuth s auth n).accounts.length :=
      (List.findIdx?_eq_some_iff_findIdx_eq.mp hF2).1
    rw [upsertAccountFromAuth_eq_set (upsertAccountFromAuth s auth n) auth n' j hT
      hF2 hjlt]
    simp [List.length_set]
  · have hTc : optTruthy cauth.accountId = true := by
      simp [optTruthy, hcid, hcidne]
    obtain ⟨hc0, hclt, hctok, hcids⟩ := upsertCodexAccount_active cs cauth m hcrt
    have hcids' := hcids hTc
    refine ⟨?_, hc0, hclt, by rw [hcid] at hcids'; exact hcids', hctok⟩
    obtain ⟨acc, hacc, hacci⟩ : ∃ acc,
        (upsertCodexAccount cs cauth m).accounts[
          (upsertCodexAccount cs cauth m).activeIndex.toNat]? = some acc
        ∧ acc.accountId = cauth.accountId := by
      cases hq : (upsertCodexAccount cs cauth m).accounts[
          (upsertCodexAccount cs cauth m).activeIndex.toNat]? with
      | none => rw [hq] at hcids'; simp at hcids'
      | some acc =>
        rw [hq] at hcids'
        exact ⟨acc, rfl, by simpa using hcids'⟩
    have hmem : acc ∈ (upsertCodexAccount cs cauth m).accounts := by
      obtain ⟨hltn, hh⟩ := List.getElem?_eq_some.mp hacc
      exact hh ▸ List.getElem_mem hltn
    have hex : ∃ x ∈ (upsertCodexAccount cs cauth m).accounts,
        (fun acc => decide (acc.accountId = cauth.accountId)) x = true :=
      ⟨acc, hmem, by simp [hacci]⟩
    have hF2 := List.findIdx?_eq_some_of_exists hex
    set j := List.findIdx (fun acc => decide (acc.accountId = cauth.accountId))
      (upsertCodexAccount cs cauth m).accounts with hj
    have hTgt2 : codexUpsertTarget (upsertCodexAccount cs cauth m) cauth
        = some j := by
      unfold codexUpsertTarget
      rw [if_pos hTc, hF2]
    have hjlt : j < (upsertCodexAccount cs cauth m).accounts.length :=
      (List.findIdx?_eq_some_iff_findIdx_eq.mp hF2).1
    rw [upsertCodexAccount_eq_set (upsertCodexAccount cs cauth m) cauth m' j hcrt
      hTgt2 hjlt]
    simp [List.length_set]

/-- Claim C5 witness: the amended statement on concrete one-account
stores and fresh identities, for both providers. -/
theorem upsert_idempotent_by_identity_witness :
    ({ accessToken := "at", refreshToken := "r9", expiresAt := 0,
       email := some "z" } : AntigravityAuth).email = some "z"
    ∧ (upsertAccountFromAuth (upsertAccountFromAuth storageOneA
        { accessToken := "at", refreshToken := "r9", expiresAt := 0,
          email := some "z" } 3)
        { accessToken := "at", refreshToken := "r9", expiresAt := 0,
          email := some "z" } 4).accounts.length
      = (upsertAccountFromAuth storageOneA
          { accessToken := "at", refreshToken := "r9", expiresAt := 0,
            email := some "z" } 3).accounts.length
    ∧ (upsertCodexAccount (upsertCodexAccount codexStorageOne
        { accessToken := "at", refreshToken := "r9", expiresAt := 0,
          accountId := some "w" } 3)
        { accessToken := "at", refreshToken := "r9", expiresAt := 0,
          accountId := some "w" } 4).accounts.length
      = (upsertCodexAccount codexStorageOne
          { accessToken := "at", refreshToken := "r9", expiresAt := 0,
            accountId := some "w" } 3).accounts.length := by
  have h := upsert_idempotent_by_identity storageOneA
    { accessToken := "at", refreshToken := "r9", expiresAt := 0,
      email := some "z" } 3 4 "z" codexStorageOne
    { accessToken := "at", refreshToken := "r9", expiresAt := 0,
      accountId := some "w" } 3 4 "w" rfl (by decide) rfl (by decide) (by decide)
  exact ⟨rfl, h.1.1, h.2.1⟩

/-! ## Claim C4: revoked refresh scrubs the stored token -/

/-- The found-by-email branch of `_clear_stored_refresh_token` as an
equation: only the matching record is rewritten, with its refresh token
blanked. -/
theorem clearStoredRefreshToken_eq_set (auth : AntigravityAuth)
    (st : AccountStorage) (nowMs : Int) (i : Nat)
    (hT : optTruthy auth.email = true)
    (hF : st.accounts.findIdx? (fun acc => decide (acc.email = auth.email)) = some i)
    (hi : i < st.accounts.length) :
    clearStoredRefreshToken auth (some st) nowMs =
      some
        { st with
          accounts := st.accounts.set i
            ({ (st.accounts[i]) with
               refreshToken := "", lastUsed := some nowMs }) } := by
  have hne : ¬ st.accounts = [] := by
    intro h
    rw [h] at hi
    simp at hi
  unfold clearStoredRefreshToken
  simp [hne, hT, hF, List.getElem?_eq_getElem hi]

/-- Claim C4: a refresh failure whose parsed error code is
`invalid_grant` raises the distinguishable revoked error carrying the
account email, leaves the in-memory credential (in particular its access
token) unchanged in the caller's hands, and rewrites exactly the stored
account matching that email, blanking its refresh token while keeping
its email and every other record intact. -/
theorem refresh_revoked_scrubs_stored_token (auth : AntigravityAuth)
    (st : AccountStorage) (f : TokenFailure) (startTime nowMs : Int)
    (fetched : String) (e : String) (i : Nat)
    (hrt : ¬ auth.refreshToken = "")
    (hcode : lowerAscii f.errorCode = "invalid_grant")
    (he : auth.email = some e) (hene : ¬ e = "")
    (hF : st.accounts.findIdx? (fun acc => decide (acc.email = auth.email)) = some i) :
    (refreshAccessToken auth (some st) (.failure f) startTime nowMs fetched).2 =
      .error (.revoked ("Refresh token revoked" ++ (" (email=" ++ e ++ ")") ++
        " - run antigravity login again"))
    ∧ credentialAfterRefresh auth
        (refreshAccessToken auth (some st) (.failure f) startTime nowMs fetched).2
        = auth
    ∧ (credentialAfterRefresh auth
        (refreshAccessToken auth (some st) (.failure f) startTime nowMs
          fetched).2).accessToken = auth.accessToken
    ∧ (∃ st',
        (refreshAccessToken auth (some st) (.failure f) startTime nowMs fetched).1
          = some st'
        ∧ st'.accounts.length = st.accounts.length
        ∧ (st'.accounts[i]?).map Account.refreshToken = some ""
        ∧ (st'.accounts[i]?).map Account.email = (st.accounts[i]?).map Account.email
        ∧ ∀ j, ¬ j = i → st'.accounts[j]? = st.accounts[j]?) := by
  have hi : i < st.accounts.length :=
    (List.findIdx?_eq_some_iff_findIdx_eq.mp hF).1
  have hT : optTruthy auth.email = true := by
    simp [optTruthy, he, hene]
  have hclear := clearStoredRefreshToken_eq_set auth st nowMs i hT hF hi
  have heq : refreshAccessToken auth (some st) (.failure f) startTime nowMs fetched
      = (clearStoredRefreshToken auth (some st) nowMs,
         .error (.revoked ("Refresh token revoked" ++ (" (email=" ++ e ++ ")") ++
           " - run antigravity login again"))) := by
    unfold refreshAccessToken
    rw [if_neg hrt]
    dsimp only
    rw [if_pos hcode, he]
    dsimp only
    rw [if_neg hene]
  rw [heq, hclear]
  have hset : i < (st.accounts.set i
      ({ (st.accounts[i]) with
         refreshToken := "", lastUsed := some nowMs })).length := by
    rw [List.length_set]
    exact hi
  refine ⟨rfl, rfl, rfl,
    ⟨{ st with
       accounts := st.accounts.set i
         ({ (st.accounts[i]) with
            refreshToken := "", lastUsed := some nowMs }) },
      rfl, ?_, ?_, ?_, ?_⟩⟩
  · simp [List.length_set]
  · simp [List.getElem?_set_self hi]
  · simp [List.getElem?_set_self hi, List.getElem?_eq_getElem hi]
  · intro j hj
    simp [List.getElem?_set_ne (show i ≠ j from fun h => hj h.symm)]

/-- Claim C4 witness: the revoked branch on a concrete one-account store. -/
theorem refresh_revoked_scrubs_stored_token_witness :
    (refreshAccessToken
      { accessToken := "oldAT", refreshToken := "rt", expiresAt := 0,
        email := some "u" }
      (some { accounts := [{ email := some "u", refreshToken := "rt" }],
              activeIndex := 0 })
      (.failure { statusCode := 400, errorCode := "invalid_grant",
                  errorDescription := "", text := "" }) 0 9 "").2 =
      .error (.revoked "Refresh token revoked (email=u) - run antigravity login again") := by
  exact (refresh_revoked_scrubs_stored_token
    { accessToken := "oldAT", refreshToken := "rt", expiresAt := 0,
      email := some "u" }
    { accounts := [{ email := some "u", refreshToken := "rt" }], activeIndex := 0 }
    { statusCode := 400, errorCode := "invalid_grant", errorDescription := "",
      text := "" } 0 9 "" "u" 0 (by decide) (by decide) rfl (by decide)
    (by decide)).1

/-! ## Claim C6: refresh without a new refresh token -/

/-- Claim C6: a successful refresh whose token payload carries no
`refresh_token` key returns (and persists as the active account) a
credential with the prior refresh token unchanged, for both the
antigravity and the codex refresh paths. -/
theorem refresh_without_new_token_keeps_prior (auth : AntigravityAuth)
    (storage : Option AccountStorage) (accessToken : String)
    (expiresIn : Option Int) (startTime nowMs : Int) (fetched : String)
    (hrt : ¬ auth.refreshToken = "") :
    (∃ refreshed,
      (refreshAccessToken auth storage (.success accessToken none expiresIn)
        startTime nowMs fetched).2 = .ok refreshed
      ∧ refreshed.refreshToken = auth.refreshToken)
    ∧ (∃ st',
        (refreshAccessToken auth storage (.success accessToken none expiresIn)
          startTime nowMs fetched).1 = some st'
        ∧ 0 ≤ st'.activeIndex
        ∧ (st'.accounts[st'.activeIndex.toNat]?).map Account.refreshToken
            = some auth.refreshToken)
    ∧ (∀ (c : CodexAuth) (cstorage : Option CodexAccountStorage) (at2 : String)
        (exp : Option Int) (t0 t1 : Int) (xid xem : Option String),
        ¬ c.refreshToken = "" →
        (refreshCodexTokenSuccess c cstorage at2 none exp t0 t1 xid
            xem).2.refreshToken = c.refreshToken
        ∧ 0 ≤ (refreshCodexTokenSuccess c cstorage at2 none exp t0 t1 xid
            xem).1.activeIndex
        ∧ ((refreshCodexTokenSuccess c cstorage at2 none exp t0 t1 xid
              xem).1.accounts[
            (refreshCodexTokenSuccess c cstorage at2 none exp t0 t1 xid
              xem).1.activeIndex.toNat]?).map CodexAccount.refreshToken
          = some c.refreshToken) := by
  have heq : refreshAccessToken auth storage (.success accessToken none expiresIn)
      startTime nowMs fetched =
      (some (upsertAccountFromAuth (storage.getD {})
        (refreshedCredential auth accessToken none expiresIn startTime fetched)
        nowMs),
       .ok (refreshedCredential auth accessToken none expiresIn startTime
         fetched)) := by
    unfold refreshAccessToken
    rw [if_neg hrt]
  rw [heq]
  obtain ⟨h0, _, htok, _⟩ := upsertAccountFromAuth_active (storage.getD {})
    (refreshedCredential auth accessToken none expiresIn startTime fetched) nowMs
  refine ⟨⟨_, rfl, rfl⟩, ⟨_, rfl, h0, ?_⟩, ?_⟩
  · rw [htok]
    rfl
  · intro c cstorage at2 exp t0 t1 xid xem hcrt
    have hR : (refreshCodexSuccess c at2 none exp t0 xid xem).refreshToken
        = c.refreshToken := rfl
    have hrt' : ¬ (refreshCodexSuccess c at2 none exp t0 xid
        xem).refreshToken = "" := by
      rw [hR]
      exact hcrt
    obtain ⟨hc0, _, hctok, _⟩ := upsertCodexAccount_active (cstorage.getD {})
      (refreshCodexSuccess c at2 none exp t0 xid xem) t1 hrt'
    refine ⟨rfl, ?_, ?_⟩
    · simpa [refreshCodexTokenSuccess] using hc0
    · rw [show (refreshCodexTokenSuccess c cstorage at2 none exp t0 t1 xid
            xem).1
          = upsertCodexAccount (cstorage.getD {})
            (refreshCodexSuccess c at2 none exp t0 xid xem) t1 from rfl]
      rw [hctok, hR]

/-- Claim C6 witness: the antigravity refresh on a concrete credential
and empty storage, with no `refresh_token` in the payload. -/
theorem refresh_without_new_token_keeps_prior_witness :
    ¬ ("rt0" : String) = ""
    ∧ ∃ refreshed,
        (refreshAccessToken
          { accessToken := "", refreshToken := "rt0", expiresAt := 0 }
          none (.success "newAT" none (some 60)) 5 6 "").2 = .ok refreshed
        ∧ refreshed.refreshToken = "rt0" := by
  refine ⟨by decide, ?_⟩
  exact (refresh_without_new_token_keeps_prior
    { accessToken := "", refreshToken := "rt0", expiresAt := 0 }
    none "newAT" (some 60) 5 6 "" (by decide)).1

/-! ## Claim C3: stream endings without a completion marker -/

/-- Claim C3 counterexample: `ChatAntigravity._astream` treats a
successfully opened stream that ends with no content and no `[DONE]`
marker as a successful completion (the line loop is followed by a plain
`return`, src/chat_model.py line 499), yielding nothing — it does not
raise, contradicting the claim for one of its two cited
implementations.  The second component `true` is the
completed-without-raising flag. -/
theorem antigravity_empty_stream_completes_cex :
    antigravityStreamChunks [] = ([], true)
    ∧ antigravityStreamChunks [AgStreamEvent.payload []] = ([], true)
    ∧ antigravityStreamChunks [AgStreamEvent.undecodable] = ([], true) := by
  exact ⟨rfl, rfl, rfl⟩

/-- Claim C3 (amended): `ChatCodex._astream` behaves as claimed — a
stream end without `[DONE]` succeeds exactly when a content chunk was
already yielded (or a delta had been seen), and raises otherwise — while
`ChatAntigravity._astream` completes successfully on any stream end,
content or not. -/
theorem stream_end_without_marker (saw : Bool) (events : List CodexStreamEvent)
    (agEvents : List AgStreamEvent) :
    (codexStreamWalk saw events).2 =
      (saw || !(codexStreamWalk saw events).1.isEmpty || codexReachesDone events)
    ∧ (antigravityStreamChunks agEvents).2 = true := by
  constructor
  · induction events generalizing saw with
    | nil => simp [codexStreamWalk, codexReachesDone]
    | cons ev rest ih =>
      cases ev with
      | doneMarker => simp [codexStreamWalk, codexReachesDone]
      | other => simpa [codexStreamWalk, codexReachesDone] using ih saw
      | delta t =>
        cases t with
        | none => simpa [codexStreamWalk, codexReachesDone] using ih saw
        | some s =>
          by_cases hs : s = ""
          · simpa [codexStreamWalk, codexReachesDone, hs] using ih saw
          · have := ih true
            simp [codexStreamWalk, codexReachesDone, hs, this]
  · induction agEvents with
    | nil => simp [antigravityStreamChunks]
    | cons ev rest ih =>
      cases ev with
      | doneMarker => simp [antigravityStreamChunks]
      | undecodable => simpa [antigravityStreamChunks] using ih
      | payload parts => simpa [antigravityStreamChunks] using ih

/-! ## Claim C1: retry versus endpoint fail-over -/

/-- Claim C1 counterexample: with ranked endpoints `[A, B]`, A returning
500 on the first outer attempt and 200 on the second, and B healthy, the
executor does NOT return A's second result without contacting B — the
`continue` after the 429/5xx backoff moves to the *next endpoint* in the
same pass (src/chat_model.py lines 324-327 inside the endpoint loop), so
B is contacted during attempt 0 and its parsed result is returned. -/
theorem executor_500_contacts_next_endpoint_cex :
    (runExecutor execCfgStd behaviorAThenB ["A", "B"]).2 = .ok "okB"
    ∧ (runExecutor execCfgStd behaviorAThenB ["A", "B"]).1.trace
        = [(0, "A"), (0, "B")] := by
  exact ⟨rfl, rfl⟩

/-- Claim C1 (amended): a 429/≥500 status causes a backoff and then an
immediate move to the next endpoint within the same outer attempt; the
failing endpoint is retried on the next outer attempt pass.  With
endpoints `[A, B]`, A returning 500 then 200 and B unreachable, the
executor issues exactly the requests A(0), B(0), A(1) and returns the
parsed result of A's second call. -/
theorem executor_backoff_then_failover (behavior : Nat → String → HttpOutcome)
    (bodyA0 parsedA1 : String)
    (hA0 : behavior 0 "A" = .response 500 bodyA0)
    (hB0 : behavior 0 "B" = .transportError)
    (hA1 : behavior 1 "A" = .response 200 parsedA1) :
    (runExecutor execCfgStd behavior ["A", "B"]).2 = .ok parsedA1
    ∧ (runExecutor execCfgStd behavior ["A", "B"]).1.trace
        = [(0, "A"), (0, "B"), (1, "A")] := by
  constructor <;>
    simp [runExecutor, runAttempts, runEndpointPass, hA0, hB0, hA1, updateStatus,
      attemptZeroRecovery, buildExhaustionError, execCfgStd, optTruthy]

/-- Claim C1 witness: the amended run on the concrete behavior. -/
theorem executor_backoff_then_failover_witness :
    (runExecutor execCfgStd behaviorAOnly ["A", "B"]).2 = .ok "okA"
    ∧ (runExecutor execCfgStd behaviorAOnly ["A", "B"]).1.trace
        = [(0, "A"), (0, "B"), (1, "A")] := by
  exact executor_backoff_then_failover behaviorAOnly "errA" "okA" rfl rfl rfl

/-! ## Claim C7: the aggregated exhaustion error -/

/-- Claim C7 counterexample: when both endpoints answer 429 on all four
outer attempts, the executor is exhausted without ever capturing an
`HTTPStatusError` (the 429 branch records the status but raises
nothing), so it raises the plain `All Antigravity endpoints failed`
error: no overall status is surfaced — despite every endpoint having
returned 429 — and no body snippet is included, contrary to the claim.
The streaming executor (`_astream`, src/chat_model.py lines 550-565)
raises the identical error on the same run. -/
theorem executor_all429_plain_error_cex :
    (runExecutor execCfgStd behaviorAll429 ["A", "B"]).2 =
      .error (.allFailed [("A", 429), ("B", 429)])
    ∧ (runStreamExecutor execCfgStd behaviorAll429 noStreams ["A", "B"]).2 =
      .error (.allFailed [("A", 429), ("B", 429)])
    ∧ (ExecError.allFailed [("A", 429), ("B", 429)]).surfacedCode = none
    ∧ (ExecError.allFailed [("A", 429), ("B", 429)]).bodySnippet = none := by
  exact ⟨rfl, rfl, rfl, rfl⟩

/-- Claim C7 (amended): when exhaustion follows at least one captured
HTTP error, the aggregated error reports the per-endpoint last observed
statuses, surfaces 429 as the overall status whenever some endpoint's
last status was 429 (even though the captured error was, say, a 403) and
otherwise the captured error's status, and carries the captured body
stripped and truncated to 500 characters (so the snippet never exceeds
501 characters including the ellipsis); when no HTTP error was captured
(only 429/5xx/transport failures), the executor instead raises the
plain all-failed error that only lists the per-endpoint statuses.  Both
raises are shared verbatim by the non-streaming `_agenerate` and the
streaming `_astream`, witnessed by the identical exhaustion errors of
the two concrete runs. -/
theorem exhaustion_error_aggregation (stExh : ExecState) (errStatus : Nat)
    (body : String) (hlast : stExh.lastError = some (errStatus, body)) :
    (stExh.statuses.any (fun p => p.2 = 429) = true →
      (buildExhaustionError stExh).surfacedCode = some 429)
    ∧ (stExh.statuses.any (fun p => p.2 = 429) = false →
      (buildExhaustionError stExh).surfacedCode = some errStatus)
    ∧ (buildExhaustionError stExh).bodySnippet = some (truncateSnippet body)
    ∧ (buildExhaustionError stExh).reportedStatuses = stExh.statuses
    ∧ (truncateSnippet body).length ≤ 501
    ∧ (runExecutor execCfgStd behavior429And403 ["A", "B"]).2 =
        .error (.aggregated 429 [("A", 429), ("B", 403)] "body403")
    ∧ (runStreamExecutor execCfgStd behavior429And403 noStreams ["A", "B"]).2 =
        .error (.aggregated 429 [("A", 429), ("B", 403)] "body403") := by
  refine ⟨?_, ?_, ?_, ?_, ?_, rfl, rfl⟩
  · intro h
    simp [buildExhaustionError, hlast, h, ExecError.surfacedCode]
  · intro h
    simp [buildExhaustionError, hlast, h, ExecError.surfacedCode]
  · simp [buildExhaustionError, hlast, ExecError.bodySnippet]
  · simp [buildExhaustionError, hlast, ExecError.reportedStatuses]
  · unfold truncateSnippet
    by_cases h : 500 < (stripAscii body).length
    · rw [if_pos h]
      rw [String.length_append]
      have hdl : (stripAscii body).length = (stripAscii body).data.length := rfl
      have h1 : (String.mk ((stripAscii body).data.take 500)).length = 500 := by
        show ((stripAscii body).data.take 500).length = 500
        rw [List.length_take]
        omega
      have h2 : ("…" : String).length = 1 := rfl
      omega
    · rw [if_neg h]
      omega

/-- Claim C7 witness: the aggregation rule on a concrete final state in
which an endpoint's last status was 429 while the captured error was a
403. -/
theorem exhaustion_error_aggregation_witness :
    ([("A", 429)] : List (String × Nat)).any (fun p => p.2 = 429) = true
    ∧ (buildExhaustionError
        { statuses := [("A", 429)], lastError := some (403, "z") }).surfacedCode
      = some 429 := by
  refine ⟨by decide, ?_⟩
  exact (exhaustion_error_aggregation
    { statuses := [("A", 429)], lastError := some (403, "z") } 403 "z" rfl).1
    (by decide)

end ProviderAuth
